import Mathlib

/-!
Verification development for the conversational frontend of the
real-time RAG assistant repository (file frontend/app.py).

The frontend is a Streamlit chat controller.  Its state-bearing and
protocol logic is embedded shallowly here:

* Python dict values appearing in backend trace events are modelled by
  the inductive type PyVal; a dict is an association list with string
  keys (keys are unique in every payload the backend contract allows,
  so first-match lookup coincides with Python dict lookup).
* Streamlit session state is the structure AppState whose fields are
  Option-valued: none models the key being absent from session state.
* Fallible Python code (KeyError raising dict subscripts) is modelled
  with Except String, the error carrying the Python str() rendering of
  the KeyError.
* One user turn of render_chat_interface is the function run_turn; the
  outcome of the network call (requests.post + raise_for_status +
  response.json), which is external I/O, is passed in as a value of
  ChatCallResult with one constructor per except clause of the source.
-/

/-- A Python value as it can occur in a backend JSON payload.  vnone is
Python None.  vdict is a JSON object / Python dict as an association
list. -/
inductive PyVal where
  | vstr (s : String)
  | vint (n : Int)
  | vbool (b : Bool)
  | vnone
  | vdict (fields : List (String × PyVal))

/-- Python equality test of a value against a string literal, as in
`event["node_name"] == "rag_lookup"`: a non-string value never equals a
string. -/
def PyVal.eqStr : PyVal → String → Bool
  | PyVal.vstr s, t => s == t
  | _, _ => false

/-- Python `str()` as used by f-string interpolation.  Exact for the
scalar values the frontend interpolates; the rendering of a dict value
is abstracted (no claim depends on it). -/
def PyVal.pystr : PyVal → String
  | PyVal.vstr s => s
  | PyVal.vint n => toString n
  | PyVal.vbool b => if b then "True" else "False"
  | PyVal.vnone => "None"
  | PyVal.vdict fs => "\x7bdict with " ++ toString fs.length ++ " entries\x7d"

/-- Python key-membership test `k in v` for dict values; a non-dict
value is treated as containing no keys (the frontend only applies this
to the details mapping, a dict in every payload the backend contract
allows). -/
def PyVal.hasKey : PyVal → String → Bool
  | PyVal.vdict fs, k => (fs.find? (fun kv => kv.1 == k)).isSome
  | _, _ => false

/-- Python dict subscript `v[k]` on a dict value, as an Option. -/
def PyVal.getKey : PyVal → String → Option PyVal
  | PyVal.vdict fs, k => (fs.find? (fun kv => kv.1 == k)).map (fun kv => kv.2)
  | _, _ => none

/-- Python truthiness of a value, as in `elif event["details"]:`. -/
def PyVal.truthy : PyVal → Bool
  | PyVal.vstr s => !(s == "")
  | PyVal.vint n => !(n == 0)
  | PyVal.vbool b => b
  | PyVal.vnone => false
  | PyVal.vdict fs => !fs.isEmpty

/-- A Python dict with string keys, such as one trace event. -/
abbrev Dict := List (String × PyVal)

/-- Python dict subscript `d[k]` on a top-level event, as an Option. -/
def dget (d : Dict) (k : String) : Option PyVal :=
  (d.find? (fun kv => kv.1 == k)).map (fun kv => kv.2)

/-- Python dict subscript `d[k]` with the KeyError it raises when the
key is absent; the error string is Python str() of the KeyError, which
is the key wrapped in single quotes. -/
def dgetE (d : Dict) (k : String) : Except String PyVal :=
  match dget d k with
  | some v => Except.ok v
  | none => Except.error ("\x27" ++ k ++ "\x27")

/-- One chat message in session state: a dict with role and content
keys. -/
structure Message where
  role : String
  content : String
deriving DecidableEq

/-- Streamlit session state as touched by the frontend.  A field is
none when its key is absent from st.session_state. -/
structure AppState where
  messages : Option (List Message)
  session_id : Option String
  web_search_enabled : Option Bool
deriving DecidableEq

/-- Translation of init_session_state.  The generated uuid4 string is
passed in as fresh_id since it is external randomness. -/
def init_session_state (fresh_id : String) (s : AppState) : AppState :=
  let s1 := if s.messages.isNone then { s with messages := some [] } else s
  let s2 :=
    if s1.session_id.isNone then
      { s1 with
        session_id := some fresh_id,
        messages := some (s1.messages.getD [] ++
          [⟨"assistant", "Hello! How can I help you today?"⟩]) }
    else s1
  if s2.web_search_enabled.isNone then { s2 with web_search_enabled := some true } else s2

/-- Translation of icon_map.get(event["node_name"], gear) in
display_trace_events. -/
def icon_for (node_name : PyVal) : String :=
  if node_name.eqStr ("router") then "➡️"
  else if node_name.eqStr ("rag_lookup") then "📚"
  else if node_name.eqStr ("web_search") then "🌐"
  else if node_name.eqStr ("answer") then "💡"
  else if node_name.eqStr ("__end__") then "✅"
  else "⚙️"

/-- One Streamlit rendering call made while displaying a trace event. -/
inductive DisplayLine where
  | subheader (text : String)
  | write (text : String)
  | success (text : String)
  | warning (text : String)
  | markdown (text : String)
  | json (v : PyVal)
  | separator

/-- The detail lines of one trace event: the if / elif chain of
display_trace_events after the subheader and description lines. -/
def detailLines (node_name details : PyVal) : List DisplayLine :=
  if node_name.eqStr ("rag_lookup") && details.hasKey ("sufficiency_verdict") then
    let verdict := (details.getKey ("sufficiency_verdict")).getD PyVal.vnone
    (if verdict.eqStr ("Sufficient") then
      [DisplayLine.success ("**RAG Verdict:** " ++ verdict.pystr ++
        " - Relevant info found in Knowledge Base.")]
    else
      [DisplayLine.warning ("**RAG Verdict:** " ++ verdict.pystr ++
        " - No sufficient info in Knowledge Base. Diverting to Web Search.")]) ++
    (if details.hasKey ("retrieved_content_summary") then
      [DisplayLine.markdown ("**Retrieved Content Summary:** `" ++
        ((details.getKey ("retrieved_content_summary")).getD PyVal.vnone).pystr ++ "`")]
    else [])
  else if node_name.eqStr ("web_search") && details.hasKey ("retrieved_content_summary") then
    [DisplayLine.markdown ("**Web Search Content Summary:** `" ++
      ((details.getKey ("retrieved_content_summary")).getD PyVal.vnone).pystr ++ "`")]
  else if details.truthy then [DisplayLine.json details]
  else []

/-- Rendering of one trace event inside the loop of
display_trace_events.  The subscripts are evaluated in source order
(node_name, then step, then description, then the details accesses);
a missing key raises, modelled as Except.error with the Python str()
of the KeyError. -/
def format_event (event : Dict) : Except String (List DisplayLine) :=
  match dgetE event ("node_name") with
  | Except.error e => Except.error e
  | Except.ok node_name =>
    match dgetE event ("step") with
    | Except.error e => Except.error e
    | Except.ok step =>
      match dgetE event ("description") with
      | Except.error e => Except.error e
      | Except.ok description =>
        match dgetE event ("details") with
        | Except.error e => Except.error e
        | Except.ok details =>
          Except.ok
            ([DisplayLine.subheader (icon_for node_name ++ " Step " ++ step.pystr ++
                ": " ++ node_name.pystr),
              DisplayLine.write ("**Description:** " ++ description.pystr)] ++
             detailLines node_name details ++
             [DisplayLine.separator])

/-- Translation of display_trace_events: nothing is rendered for an
empty (falsy) trace list; otherwise the events are rendered in order,
and the first failing event rendering aborts the whole display with
its exception. -/
def display_trace_events (trace_events : List Dict) :
    Except String (List (List DisplayLine)) :=
  if trace_events.isEmpty then Except.ok []
  else trace_events.mapM format_event

/-- Decoded JSON body of a 2xx response of POST /chat/ as consumed by
call_backend_chat_api; a field is none when the key is absent. -/
structure ChatBody where
  response : Option String
  trace_events : Option (List Dict)

/-- Translation of the tail of call_backend_chat_api after the
response decoded: data.get with defaults for both keys. -/
def call_backend_chat_api (body : ChatBody) : String × List Dict :=
  (body.response.getD ("Sorry, I couldn\x27t get a response from the agent."),
   body.trace_events.getD [])

/-- Outcome of the network call of one turn, one constructor per
except clause of render_chat_interface: requests ConnectionError,
requests RequestException (carrying its str(), as raised for a
non-success status by raise_for_status), json JSONDecodeError, and any
other exception as raised before the response was obtained.  The four
kinds are disjoint, matching the dispatch of the except chain. -/
inductive ChatCallResult where
  | ok (body : ChatBody)
  | connErr
  | reqErr (e : String)
  | jsonErr
  | unexpectedErr (e : String)

/-- Append one message to the chat history, as
st.session_state.messages.append. -/
def appendMsg (s : AppState) (m : Message) : AppState :=
  { s with messages := some (s.messages.getD [] ++ [m]) }

/-- Result of one invocation of the chat-input branch of
render_chat_interface: the new session state, the display records the
trace display completed (none when it was not reached or raised), and
whether the try block ran to completion. -/
structure TurnOutput where
  state : AppState
  displayed_trace : Option (List (List DisplayLine))
  succeeded : Bool

/-- Translation of the chat-input branch of render_chat_interface.
An empty prompt is falsy, so the walrus-guarded branch does not run.
Otherwise the user message is appended, then the branch of the
try / except chain selected by the network outcome runs; in the
success branch display_trace_events runs after the assistant append,
and a KeyError it raises is caught by the final except clause, which
appends a second assistant message. -/
def run_turn (s : AppState) (prompt : String) (net : ChatCallResult) : TurnOutput :=
  if prompt = "" then ⟨s, none, false⟩
  else
    let s1 := appendMsg s ⟨"user", prompt⟩
    match net with
    | ChatCallResult.ok body =>
        let agent_response := (call_backend_chat_api body).1
        let trace_events := (call_backend_chat_api body).2
        let s2 := appendMsg s1 ⟨"assistant", agent_response⟩
        match display_trace_events trace_events with
        | Except.ok recs => ⟨s2, some recs, true⟩
        | Except.error e =>
            ⟨appendMsg s2 ⟨"assistant", "Unexpected Error: " ++ e⟩, none, false⟩
    | ChatCallResult.connErr =>
        ⟨appendMsg s1 ⟨"assistant", "Error: Could not connect to the backend."⟩, none, false⟩
    | ChatCallResult.reqErr e =>
        ⟨appendMsg s1 ⟨"assistant", "Error: " ++ e⟩, none, false⟩
    | ChatCallResult.jsonErr =>
        ⟨appendMsg s1 ⟨"assistant", "Error: Invalid response from backend."⟩, none, false⟩
    | ChatCallResult.unexpectedErr e =>
        ⟨appendMsg s1 ⟨"assistant", "Unexpected Error: " ++ e⟩, none, false⟩

/-- A sequence of turns: each entry is the submitted prompt together
with the outcome of its network call. -/
def run_turns (s : AppState) (ts : List (String × ChatCallResult)) : AppState :=
  ts.foldl (fun st t => (run_turn st t.1 t.2).state) s

/-- Whether the try block of a turn with this network outcome runs to
completion: the call must succeed and the returned trace must display
without raising. -/
def turnSucceeds (net : ChatCallResult) : Bool :=
  match net with
  | ChatCallResult.ok body =>
      match display_trace_events (call_backend_chat_api body).2 with
      | Except.ok _ => true
      | Except.error _ => false
  | _ => false

/-- Whether a turn with this network outcome reaches the trace display
and the display then raises. -/
def displayFails (net : ChatCallResult) : Bool :=
  match net with
  | ChatCallResult.ok body =>
      match display_trace_events (call_backend_chat_api body).2 with
      | Except.ok _ => false
      | Except.error _ => true
  | _ => false

/-- Whether a rendered event display contains any markdown line; the
quoted content-summary excerpts are the only markdown lines
display_trace_events ever emits. -/
def isMarkdownLine : DisplayLine → Bool
  | DisplayLine.markdown _ => true
  | _ => false

/-! ## Helper lemmas -/

/-- appendMsg changes only the messages field. -/
theorem appendMsg_session_id (s : AppState) (m : Message) :
    (appendMsg s m).session_id = s.session_id := rfl

/-- A key that subscripting finds is a key that membership reports. -/
theorem hasKey_of_getKey (v : PyVal) (k : String) (x : PyVal)
    (h : v.getKey k = some x) : v.hasKey k = true := by
  cases v with
  | vdict fs =>
      simp only [PyVal.getKey] at h
      rcases Option.map_eq_some'.mp h with ⟨kv, hk, _⟩
      simp [PyVal.hasKey, hk]
  | vstr s => simp [PyVal.getKey] at h
  | vint n => simp [PyVal.getKey] at h
  | vbool b => simp [PyVal.getKey] at h
  | vnone => simp [PyVal.getKey] at h

/-- A dict in which subscripting finds a key is truthy. -/
theorem truthy_of_getKey (fs : List (String × PyVal)) (k : String) (x : PyVal)
    (h : (PyVal.vdict fs).getKey k = some x) : (PyVal.vdict fs).truthy = true := by
  cases fs with
  | nil => simp [PyVal.getKey] at h
  | cons a l => simp [PyVal.truthy]

/-- The session id is unchanged by one turn, whatever its outcome. -/
theorem run_turn_state_session_id (s : AppState) (p : String) (net : ChatCallResult) :
    (run_turn s p net).state.session_id = s.session_id := by
  by_cases hp : p = ""
  · simp [run_turn, hp]
  · cases net with
    | ok body =>
        simp only [run_turn, if_neg hp]
        cases hdisp : display_trace_events (call_backend_chat_api body).2 with
        | ok recs => simp [hdisp, appendMsg]
        | error e => simp [hdisp, appendMsg]
    | connErr => simp [run_turn, if_neg hp, appendMsg]
    | reqErr e => simp [run_turn, if_neg hp, appendMsg]
    | jsonErr => simp [run_turn, if_neg hp, appendMsg]
    | unexpectedErr e => simp [run_turn, if_neg hp, appendMsg]

/-- The session id is unchanged by any sequence of turns. -/
theorem run_turns_session_id (s : AppState) (ts : List (String × ChatCallResult)) :
    (run_turns s ts).session_id = s.session_id := by
  induction ts generalizing s with
  | nil => rfl
  | cons t rest ih =>
      have hstep : run_turns s (t :: rest) = run_turns (run_turn s t.1 t.2).state rest := rfl
      rw [hstep, ih, run_turn_state_session_id]

/-! ## Claim C3 -/

/-- C3: a freshly initialized session (initialization run on the empty
state, before any user input) has a message sequence of length exactly
one whose sole entry has role assistant. -/
theorem fresh_init_single_assistant_greeting (sid : String) :
    ∃ m, (init_session_state sid ⟨none, none, none⟩).messages = some [m]
      ∧ m.role = "assistant" :=
  ⟨⟨"assistant", "Hello! How can I help you today?"⟩, rfl, rfl⟩

/-! ## Claim C9 -/

/-- C9: init_session_state is idempotent; a second run on an already
initialized state leaves the session identifier and the message
sequence unchanged. -/
theorem init_session_state_idempotent (s : AppState) (f1 f2 : String) :
    (init_session_state f2 (init_session_state f1 s)).session_id
        = (init_session_state f1 s).session_id
    ∧ (init_session_state f2 (init_session_state f1 s)).messages
        = (init_session_state f1 s).messages := by
  obtain ⟨m, sid, w⟩ := s
  cases m <;> cases sid <;> cases w <;> exact ⟨rfl, rfl⟩

/-! ## Claim C4 -/

/-- C4: the session identifier set at initialization is never changed
by a later turn: it is preserved by any single turn (successful or
failed) and by any sequence of turns. -/
theorem session_id_invariant_under_turns (s : AppState) (p : String)
    (net : ChatCallResult) (ts : List (String × ChatCallResult)) :
    (run_turn s p net).state.session_id = s.session_id
    ∧ (run_turns s ts).session_id = s.session_id :=
  ⟨run_turn_state_session_id s p net, run_turns_session_id s ts⟩

/-! ## Claim C8 -/

/-- C8 counterexample: formatting an event from which every field is
absent fails with the KeyError for node_name instead of producing a
display record. -/
theorem format_event_fails_on_missing_field :
    format_event [] = Except.error ("\x27node_name\x27") := rfl

/-- C8 amended: formatting never fails because of an absent optional
detail sub-field.  For every event carrying the four top-level fields
step, node_name (a string), description and details (a mapping),
formatting produces a display record, whichever optional sub-fields
the details mapping omits. -/
theorem format_event_total_on_wellformed (event : Dict) (sv dv : PyVal) (n : String)
    (fs : List (String × PyVal))
    (h1 : dgetE event ("node_name") = Except.ok (PyVal.vstr n))
    (h2 : dgetE event ("step") = Except.ok sv)
    (h3 : dgetE event ("description") = Except.ok dv)
    (h4 : dgetE event ("details") = Except.ok (PyVal.vdict fs)) :
    ∃ lines, format_event event = Except.ok lines := by
  unfold format_event
  rw [h1, h2, h3, h4]
  exact ⟨_, rfl⟩

/-- Sample well-formed router event whose details mapping is empty, so
every optional sub-field is absent. -/
def routerEvent : Dict :=
  [("step", PyVal.vint 1), ("node_name", PyVal.vstr "router"),
   ("description", PyVal.vstr "Routing the query"), ("details", PyVal.vdict [])]

theorem format_event_total_on_wellformed_witness :
    dgetE routerEvent ("node_name") = Except.ok (PyVal.vstr "router")
    ∧ dgetE routerEvent ("step") = Except.ok (PyVal.vint 1)
    ∧ dgetE routerEvent ("description") = Except.ok (PyVal.vstr "Routing the query")
    ∧ dgetE routerEvent ("details") = Except.ok (PyVal.vdict [])
    ∧ ∃ lines, format_event routerEvent = Except.ok lines :=
  ⟨rfl, rfl, rfl, rfl,
   format_event_total_on_wellformed routerEvent (PyVal.vint 1)
     (PyVal.vstr "Routing the query") "router" [] rfl rfl rfl rfl⟩

/-! ## Claim C1 -/

/-- Session state produced by running initialization on the empty
state with a fixed fresh identifier. -/
def initializedState : AppState := init_session_state "session-1" ⟨none, none, none⟩

/-- A decoded 2xx chat body whose trace list holds one event that is
an empty mapping, so that every required event field is absent. -/
def malformedTraceBody : ChatBody := ⟨some "All good", some [[]]⟩

/-- C1 counterexample: a completed turn (it ends in the Failed state)
in which one user message and two assistant messages are appended: the
backend answered with a success status, the assistant reply was
appended, and the trace display then raised a KeyError that the final
except clause turned into a second assistant message. -/
theorem turn_can_append_two_assistant_messages :
    (run_turn initializedState "hi" (ChatCallResult.ok malformedTraceBody)).state.messages
      = some [⟨"assistant", "Hello! How can I help you today?"⟩, ⟨"user", "hi"⟩,
              ⟨"assistant", "All good"⟩,
              ⟨"assistant", "Unexpected Error: \x27node_name\x27"⟩]
    ∧ (run_turn initializedState "hi" (ChatCallResult.ok malformedTraceBody)).succeeded
        = false :=
  ⟨rfl, rfl⟩

/-- C1 amended: every completed turn on a non-empty submission appends
exactly one user message followed only by assistant messages: exactly
one assistant message, except that when the backend call succeeds and
the trace display then raises, a second assistant (error) message is
appended; the completed trace display output exists exactly when the
turn succeeded. -/
theorem turn_appends_user_then_assistants (s : AppState) (p : String)
    (net : ChatCallResult) (hp : p ≠ "") :
    ∃ tail, (run_turn s p net).state.messages
        = some (s.messages.getD [] ++ ⟨"user", p⟩ :: tail)
      ∧ (∀ m ∈ tail, m.role = "assistant")
      ∧ tail.length = (if displayFails net then 2 else 1)
      ∧ ((run_turn s p net).displayed_trace.isSome
          ↔ (run_turn s p net).succeeded = true) := by
  cases net with
  | ok body =>
      cases hdisp : display_trace_events (call_backend_chat_api body).2 with
      | ok recs =>
          refine ⟨[⟨"assistant", (call_backend_chat_api body).1⟩], ?_, ?_, ?_, ?_⟩ <;>
            simp [run_turn, if_neg hp, hdisp, displayFails, appendMsg, List.append_assoc]
      | error e =>
          refine ⟨[⟨"assistant", (call_backend_chat_api body).1⟩,
                   ⟨"assistant", "Unexpected Error: " ++ e⟩], ?_, ?_, ?_, ?_⟩ <;>
            simp [run_turn, if_neg hp, hdisp, displayFails, appendMsg, List.append_assoc]
  | connErr =>
      refine ⟨[⟨"assistant", "Error: Could not connect to the backend."⟩], ?_, ?_, ?_, ?_⟩ <;>
        simp [run_turn, if_neg hp, displayFails, appendMsg, List.append_assoc]
  | reqErr e =>
      refine ⟨[⟨"assistant", "Error: " ++ e⟩], ?_, ?_, ?_, ?_⟩ <;>
        simp [run_turn, if_neg hp, displayFails, appendMsg, List.append_assoc]
  | jsonErr =>
      refine ⟨[⟨"assistant", "Error: Invalid response from backend."⟩], ?_, ?_, ?_, ?_⟩ <;>
        simp [run_turn, if_neg hp, displayFails, appendMsg, List.append_assoc]
  | unexpectedErr e =>
      refine ⟨[⟨"assistant", "Unexpected Error: " ++ e⟩], ?_, ?_, ?_, ?_⟩ <;>
        simp [run_turn, if_neg hp, displayFails, appendMsg, List.append_assoc]

theorem turn_appends_user_then_assistants_witness :
    ("hi" ≠ "")
    ∧ ∃ tail, (run_turn initializedState "hi" ChatCallResult.connErr).state.messages
        = some (initializedState.messages.getD [] ++ ⟨"user", "hi"⟩ :: tail)
      ∧ (∀ m ∈ tail, m.role = "assistant")
      ∧ tail.length = (if displayFails ChatCallResult.connErr then 2 else 1)
      ∧ ((run_turn initializedState "hi" ChatCallResult.connErr).displayed_trace.isSome
          ↔ (run_turn initializedState "hi" ChatCallResult.connErr).succeeded = true) :=
  ⟨by decide,
   turn_appends_user_then_assistants initializedState "hi" ChatCallResult.connErr
     (by decide)⟩

/-! ## Claim C5 -/

/-- C5: at the controller every ChatClient failure kind has its own
except clause, and a decode failure (success status, body not valid
JSON) is rendered as the fixed assistant message
Error: Invalid response from backend. - a rendering different from the
connection-failure rendering and from the protocol-failure rendering
at every backend-supplied error text other than the decode text
itself. -/
theorem decode_failure_distinct_rendering (s : AppState) (p : String) (hp : p ≠ "") :
    (run_turn s p ChatCallResult.jsonErr).state.messages
      = some (s.messages.getD [] ++
          [⟨"user", p⟩, ⟨"assistant", "Error: Invalid response from backend."⟩])
    ∧ (run_turn s p ChatCallResult.connErr).state.messages
      = some (s.messages.getD [] ++
          [⟨"user", p⟩, ⟨"assistant", "Error: Could not connect to the backend."⟩])
    ∧ ("Error: Invalid response from backend."
        ≠ "Error: Could not connect to the backend.")
    ∧ ∀ e, (run_turn s p (ChatCallResult.reqErr e)).state.messages
        = some (s.messages.getD [] ++ [⟨"user", p⟩, ⟨"assistant", "Error: " ++ e⟩])
      ∧ (e ≠ "Invalid response from backend." →
          "Error: " ++ e ≠ "Error: Invalid response from backend.") := by
  refine ⟨?_, ?_, by decide, ?_⟩
  · simp [run_turn, if_neg hp, appendMsg, List.append_assoc]
  · simp [run_turn, if_neg hp, appendMsg, List.append_assoc]
  · intro e
    refine ⟨by simp [run_turn, if_neg hp, appendMsg, List.append_assoc], ?_⟩
    intro hne heq
    apply hne
    have heq2 : "Error: " ++ e = "Error: " ++ "Invalid response from backend." := by
      rw [heq]; decide
    have hd := congrArg String.data heq2
    simp only [String.data_append] at hd
    exact String.ext (List.append_cancel_left hd)

theorem decode_failure_distinct_rendering_witness :
    ("hi" ≠ "")
    ∧ ((run_turn initializedState "hi" ChatCallResult.jsonErr).state.messages
        = some (initializedState.messages.getD [] ++
            [⟨"user", "hi"⟩, ⟨"assistant", "Error: Invalid response from backend."⟩])
      ∧ (run_turn initializedState "hi" ChatCallResult.connErr).state.messages
        = some (initializedState.messages.getD [] ++
            [⟨"user", "hi"⟩, ⟨"assistant", "Error: Could not connect to the backend."⟩])
      ∧ ("Error: Invalid response from backend."
          ≠ "Error: Could not connect to the backend.")
      ∧ ∀ e, (run_turn initializedState "hi" (ChatCallResult.reqErr e)).state.messages
          = some (initializedState.messages.getD [] ++
              [⟨"user", "hi"⟩, ⟨"assistant", "Error: " ++ e⟩])
        ∧ (e ≠ "Invalid response from backend." →
            "Error: " ++ e ≠ "Error: Invalid response from backend.")) :=
  ⟨by decide, decode_failure_distinct_rendering initializedState "hi" (by decide)⟩

/-! ## Claim C2 -/

/-- Shape of the message list after one fully successful turn: the
user message then the assistant reply are appended. -/
theorem run_turn_success_messages (s : AppState) (p : String) (net : ChatCallResult)
    (hp : p ≠ "") (hs : turnSucceeds net = true) :
    ∃ r, (run_turn s p net).state.messages
        = some (s.messages.getD [] ++ [⟨"user", p⟩, ⟨"assistant", r⟩]) := by
  cases net with
  | ok body =>
      cases hdisp : display_trace_events (call_backend_chat_api body).2 with
      | error e => simp [turnSucceeds, hdisp] at hs
      | ok recs =>
          exact ⟨(call_backend_chat_api body).1,
            by simp [run_turn, if_neg hp, hdisp, appendMsg, List.append_assoc]⟩
  | connErr => simp [turnSucceeds] at hs
  | reqErr e => simp [turnSucceeds] at hs
  | jsonErr => simp [turnSucceeds] at hs
  | unexpectedErr e => simp [turnSucceeds] at hs

/-- Roles of a message list alternate starting from assistant at index
zero: every odd index is a user message, every even index an assistant
message. -/
def rolesAlternate (l : List Message) : Prop :=
  ∀ i (h : i < l.length),
    (l.get ⟨i, h⟩).role = if i % 2 = 1 then "user" else "assistant"

/-- Appending a user / assistant pair to an odd-length alternating list
keeps it alternating. -/
theorem rolesAlternate_append_pair (l : List Message) (p r : String)
    (hl : rolesAlternate l) (hodd : l.length % 2 = 1) :
    rolesAlternate (l ++ [⟨"user", p⟩, ⟨"assistant", r⟩]) := by
  intro i h
  rw [List.get_eq_getElem]
  show ((l ++ [⟨"user", p⟩, ⟨"assistant", r⟩])[i]).role
      = if i % 2 = 1 then "user" else "assistant"
  rcases Nat.lt_trichotomy i l.length with h1 | h1 | h1
  · rw [List.getElem_append_left h1]
    have hx := hl i h1
    rw [List.get_eq_getElem] at hx
    exact hx
  · subst h1
    rw [List.getElem_append_right (Nat.le_refl l.length)]
    simp [hodd]
  · have h2 : i < l.length + 2 := by simpa using h
    have hi : i = l.length + 1 := by omega
    subst hi
    rw [List.getElem_append_right (show l.length ≤ l.length + 1 by omega)]
    have hmod : (l.length + 1) % 2 = 0 := by omega
    simp [hmod]

/-- Main induction for C2: a run of fully successful turns on
non-empty prompts extends the message list by one user / assistant
pair per turn and preserves role alternation. -/
theorem run_turns_success_messages (ts : List (String × ChatCallResult)) :
    ∀ (s : AppState) (l : List Message),
    ts.all (fun t => (t.1 != "") && turnSucceeds t.2) = true →
    s.messages = some l →
    ∃ l2, (run_turns s ts).messages = some l2
      ∧ l2.length = l.length + 2 * ts.length
      ∧ (l.length % 2 = 1 → rolesAlternate l → rolesAlternate l2) := by
  induction ts with
  | nil =>
      intro s l _ hm
      exact ⟨l, hm, by simp [run_turns], fun _ hr => hr⟩
  | cons t rest ih =>
      intro s l hall hm
      rw [List.all_cons, Bool.and_eq_true] at hall
      obtain ⟨ht, hrest⟩ := hall
      rw [Bool.and_eq_true] at ht
      obtain ⟨hp, hsu⟩ := ht
      have hp2 : t.1 ≠ "" := by simpa using hp
      obtain ⟨r, hmsg⟩ := run_turn_success_messages s t.1 t.2 hp2 hsu
      rw [hm] at hmsg
      have hstep : run_turns s (t :: rest)
          = run_turns (run_turn s t.1 t.2).state rest := rfl
      obtain ⟨l2, hm2, hlen2, halt2⟩ := ih (run_turn s t.1 t.2).state
        (l ++ [⟨"user", t.1⟩, ⟨"assistant", r⟩]) hrest (by simpa using hmsg)
      refine ⟨l2, by rw [hstep]; exact hm2, ?_, ?_⟩
      · simp only [List.length_append, List.length_cons, List.length_nil,
          List.length_cons] at hlen2 ⊢
        omega
      · intro hodd halt
        exact halt2 (by simp; omega)
          (rolesAlternate_append_pair l t.1 r halt hodd)

/-- C2: after N fully successful turns following initialization on the
empty state, the message sequence has length 1 + 2N and from index 1
onward roles strictly alternate user, assistant. -/
theorem successful_turns_growth_and_alternation (sid : String)
    (ts : List (String × ChatCallResult))
    (h : ts.all (fun t => (t.1 != "") && turnSucceeds t.2) = true) :
    ∃ l, (run_turns (init_session_state sid ⟨none, none, none⟩) ts).messages = some l
      ∧ l.length = 1 + 2 * ts.length
      ∧ ∀ i (hi : i < l.length), 1 ≤ i →
          (l.get ⟨i, hi⟩).role = if i % 2 = 1 then "user" else "assistant" := by
  have hg : rolesAlternate [⟨"assistant", "Hello! How can I help you today?"⟩] := by
    intro j hj
    simp only [List.length_cons, List.length_nil] at hj
    have hj0 : j = 0 := by omega
    subst hj0
    rfl
  obtain ⟨l2, hm, hlen, halt⟩ := run_turns_success_messages ts
    (init_session_state sid ⟨none, none, none⟩)
    [⟨"assistant", "Hello! How can I help you today?"⟩] h rfl
  refine ⟨l2, hm, by simpa using hlen, ?_⟩
  intro i hi _
  exact halt (by decide) hg i hi

/-- Two fully successful sample turns: a normal reply with an empty
trace, then a reply whose body has neither key. -/
def sampleTurns : List (String × ChatCallResult) :=
  [("What is RAG?", ChatCallResult.ok ⟨some "Retrieval augmented generation.", some []⟩),
   ("Thanks", ChatCallResult.ok ⟨none, none⟩)]

theorem successful_turns_growth_and_alternation_witness :
    (sampleTurns.all (fun t => (t.1 != "") && turnSucceeds t.2) = true)
    ∧ ∃ l, (run_turns (init_session_state "session-1" ⟨none, none, none⟩)
          sampleTurns).messages = some l
      ∧ l.length = 1 + 2 * sampleTurns.length
      ∧ ∀ i (hi : i < l.length), 1 ≤ i →
          (l.get ⟨i, hi⟩).role = if i % 2 = 1 then "user" else "assistant" :=
  ⟨by decide,
   successful_turns_growth_and_alternation "session-1" sampleTurns (by decide)⟩

/-! ## Claim C6 -/

/-- A key that membership reports is a key that subscripting finds. -/
theorem getKey_of_hasKey (v : PyVal) (k : String) (h : v.hasKey k = true) :
    ∃ x, v.getKey k = some x := by
  cases v with
  | vdict fs =>
      simp only [PyVal.hasKey] at h
      rcases Option.isSome_iff_exists.mp h with ⟨kv, hkv⟩
      exact ⟨kv.2, by simp [PyVal.getKey, hkv]⟩
  | vstr s => simp [PyVal.hasKey] at h
  | vint n => simp [PyVal.hasKey] at h
  | vbool b => simp [PyVal.hasKey] at h
  | vnone => simp [PyVal.hasKey] at h

/-- Rendering of a well-formed rag_lookup event, with its detail lines
still folded. -/
theorem format_event_rag (event : Dict) (sv dv details : PyVal)
    (h1 : dgetE event ("node_name") = Except.ok (PyVal.vstr "rag_lookup"))
    (h2 : dgetE event ("step") = Except.ok sv)
    (h3 : dgetE event ("description") = Except.ok dv)
    (h4 : dgetE event ("details") = Except.ok details) :
    format_event event = Except.ok
      ([DisplayLine.subheader (icon_for (PyVal.vstr "rag_lookup") ++ " Step " ++
          sv.pystr ++ ": " ++ (PyVal.vstr "rag_lookup").pystr),
        DisplayLine.write ("**Description:** " ++ dv.pystr)] ++
       detailLines (PyVal.vstr "rag_lookup") details ++
       [DisplayLine.separator]) := by
  unfold format_event
  rw [h1, h2, h3, h4]

/-- Detail lines of a rag_lookup event whose details mapping holds a
sufficiency verdict. -/
theorem detailLines_rag_verdict (details verdict : PyVal)
    (h5 : details.getKey ("sufficiency_verdict") = some verdict) :
    detailLines (PyVal.vstr "rag_lookup") details
      = (if verdict.eqStr ("Sufficient") then
          [DisplayLine.success ("**RAG Verdict:** " ++ verdict.pystr ++
            " - Relevant info found in Knowledge Base.")]
        else
          [DisplayLine.warning ("**RAG Verdict:** " ++ verdict.pystr ++
            " - No sufficient info in Knowledge Base. Diverting to Web Search.")]) ++
        (if details.hasKey ("retrieved_content_summary") then
          [DisplayLine.markdown ("**Retrieved Content Summary:** `" ++
            ((details.getKey ("retrieved_content_summary")).getD PyVal.vnone).pystr ++ "`")]
        else []) := by
  have hk : details.hasKey ("sufficiency_verdict") = true := hasKey_of_getKey _ _ _ h5
  simp [detailLines, PyVal.eqStr, hk, h5]

/-- C6: a rag_lookup event whose details carry a sufficiency verdict
is marked as a positive outcome with the message Relevant info found
in Knowledge Base when the verdict equals Sufficient, and as a
cautionary outcome noting the diversion to web search for any other
verdict value. -/
theorem rag_verdict_branch_marking (event : Dict) (sv dv details verdict : PyVal)
    (h1 : dgetE event ("node_name") = Except.ok (PyVal.vstr "rag_lookup"))
    (h2 : dgetE event ("step") = Except.ok sv)
    (h3 : dgetE event ("description") = Except.ok dv)
    (h4 : dgetE event ("details") = Except.ok details)
    (h5 : details.getKey ("sufficiency_verdict") = some verdict) :
    ∃ lines, format_event event = Except.ok lines
      ∧ (verdict.eqStr ("Sufficient") = true →
          DisplayLine.success ("**RAG Verdict:** " ++ verdict.pystr ++
            " - Relevant info found in Knowledge Base.") ∈ lines)
      ∧ (verdict.eqStr ("Sufficient") = false →
          DisplayLine.warning ("**RAG Verdict:** " ++ verdict.pystr ++
            " - No sufficient info in Knowledge Base. Diverting to Web Search.") ∈ lines) := by
  refine ⟨_, format_event_rag event sv dv details h1 h2 h3 h4, ?_, ?_⟩
  · intro hb
    simp [detailLines_rag_verdict details verdict h5, hb]
  · intro hb
    simp [detailLines_rag_verdict details verdict h5, hb]

/-- Sample rag_lookup event with a Sufficient verdict. -/
def ragSufficientEvent : Dict :=
  [("step", PyVal.vint 2), ("node_name", PyVal.vstr "rag_lookup"),
   ("description", PyVal.vstr "Checking the knowledge base"),
   ("details", PyVal.vdict [("sufficiency_verdict", PyVal.vstr "Sufficient")])]

theorem rag_verdict_branch_marking_witness :
    dgetE ragSufficientEvent ("node_name") = Except.ok (PyVal.vstr "rag_lookup")
    ∧ dgetE ragSufficientEvent ("step") = Except.ok (PyVal.vint 2)
    ∧ dgetE ragSufficientEvent ("description")
        = Except.ok (PyVal.vstr "Checking the knowledge base")
    ∧ dgetE ragSufficientEvent ("details")
        = Except.ok (PyVal.vdict [("sufficiency_verdict", PyVal.vstr "Sufficient")])
    ∧ (PyVal.vdict [("sufficiency_verdict", PyVal.vstr "Sufficient")]).getKey
        ("sufficiency_verdict") = some (PyVal.vstr "Sufficient")
    ∧ ∃ lines, format_event ragSufficientEvent = Except.ok lines
      ∧ ((PyVal.vstr "Sufficient").eqStr ("Sufficient") = true →
          DisplayLine.success ("**RAG Verdict:** " ++ (PyVal.vstr "Sufficient").pystr ++
            " - Relevant info found in Knowledge Base.") ∈ lines)
      ∧ ((PyVal.vstr "Sufficient").eqStr ("Sufficient") = false →
          DisplayLine.warning ("**RAG Verdict:** " ++ (PyVal.vstr "Sufficient").pystr ++
            " - No sufficient info in Knowledge Base. Diverting to Web Search.") ∈ lines) :=
  ⟨rfl, rfl, rfl, rfl, rfl,
   rag_verdict_branch_marking ragSufficientEvent (PyVal.vint 2)
     (PyVal.vstr "Checking the knowledge base")
     (PyVal.vdict [("sufficiency_verdict", PyVal.vstr "Sufficient")])
     (PyVal.vstr "Sufficient") rfl rfl rfl rfl rfl⟩

/-! ## Claim C7 -/

/-- Whether a (possibly failed) event rendering shows any quoted
content-summary excerpt: the excerpts are the only markdown lines the
trace display ever emits. -/
def excerptShown (r : Except String (List DisplayLine)) : Bool :=
  match r with
  | Except.ok lines => lines.any isMarkdownLine
  | Except.error _ => false

/-- Sample rag_lookup event whose details mapping carries a retrieved
content summary but no sufficiency verdict. -/
def ragSummaryOnlyEvent : Dict :=
  [("step", PyVal.vint 2), ("node_name", PyVal.vstr "rag_lookup"),
   ("description", PyVal.vstr "Checking the knowledge base"),
   ("details", PyVal.vdict [("retrieved_content_summary", PyVal.vstr "relevant excerpt")])]

/-- C7 counterexample: a rag_lookup event whose details carry a
retrieved_content_summary but no sufficiency_verdict renders as the
verbatim details fallback with no quoted excerpt line at all. -/
theorem rag_summary_without_verdict_not_surfaced :
    dget ragSummaryOnlyEvent ("node_name") = some (PyVal.vstr "rag_lookup")
    ∧ (PyVal.vdict [("retrieved_content_summary", PyVal.vstr "relevant excerpt")]).hasKey
        ("retrieved_content_summary") = true
    ∧ format_event ragSummaryOnlyEvent = Except.ok
        [DisplayLine.subheader "📚 Step 2: rag_lookup",
         DisplayLine.write "**Description:** Checking the knowledge base",
         DisplayLine.json
           (PyVal.vdict [("retrieved_content_summary", PyVal.vstr "relevant excerpt")]),
         DisplayLine.separator]
    ∧ excerptShown (format_event ragSummaryOnlyEvent) = false :=
  ⟨rfl, rfl, rfl, rfl⟩

/-- C7 amended: for a rag_lookup event whose details carry a
retrieved_content_summary, the summary is surfaced as a quoted excerpt
exactly when the details also carry a sufficiency_verdict; without the
verdict no excerpt line is emitted and the details are shown verbatim
instead. -/
theorem rag_summary_surfaced_iff_verdict_present (event : Dict) (sv dv details s9 : PyVal)
    (h1 : dgetE event ("node_name") = Except.ok (PyVal.vstr "rag_lookup"))
    (h2 : dgetE event ("step") = Except.ok sv)
    (h3 : dgetE event ("description") = Except.ok dv)
    (h4 : dgetE event ("details") = Except.ok details)
    (h5 : details.getKey ("retrieved_content_summary") = some s9) :
    ∃ lines, format_event event = Except.ok lines
      ∧ (details.hasKey ("sufficiency_verdict") = true →
          DisplayLine.markdown ("**Retrieved Content Summary:** `" ++ s9.pystr ++ "`")
            ∈ lines)
      ∧ (details.hasKey ("sufficiency_verdict") = false →
          (∀ t, DisplayLine.markdown t ∉ lines)
          ∧ DisplayLine.json details ∈ lines) := by
  have hks : details.hasKey ("retrieved_content_summary") = true :=
    hasKey_of_getKey _ _ _ h5
  refine ⟨_, format_event_rag event sv dv details h1 h2 h3 h4, ?_, ?_⟩
  · intro hkv
    obtain ⟨verdict, hver⟩ := getKey_of_hasKey details ("sufficiency_verdict") hkv
    simp [detailLines_rag_verdict details verdict hver, hks, h5]
  · intro hkv
    obtain ⟨fs, hfs⟩ : ∃ fs, details = PyVal.vdict fs := by
      cases details with
      | vdict fs => exact ⟨fs, rfl⟩
      | vstr s => simp [PyVal.getKey] at h5
      | vint n => simp [PyVal.getKey] at h5
      | vbool b => simp [PyVal.getKey] at h5
      | vnone => simp [PyVal.getKey] at h5
    have htr : details.truthy = true := by
      rw [hfs] at h5 ⊢
      exact truthy_of_getKey fs ("retrieved_content_summary") s9 h5
    have hdl : detailLines (PyVal.vstr "rag_lookup") details
        = [DisplayLine.json details] := by
      simp [detailLines, PyVal.eqStr, hkv, htr]
    constructor
    · intro t
      simp [hdl]
    · simp [hdl]

theorem rag_summary_surfaced_iff_verdict_present_witness :
    dgetE ragSummaryOnlyEvent ("node_name") = Except.ok (PyVal.vstr "rag_lookup")
    ∧ dgetE ragSummaryOnlyEvent ("step") = Except.ok (PyVal.vint 2)
    ∧ dgetE ragSummaryOnlyEvent ("description")
        = Except.ok (PyVal.vstr "Checking the knowledge base")
    ∧ dgetE ragSummaryOnlyEvent ("details")
        = Except.ok (PyVal.vdict [("retrieved_content_summary", PyVal.vstr "relevant excerpt")])
    ∧ (PyVal.vdict [("retrieved_content_summary", PyVal.vstr "relevant excerpt")]).getKey
        ("retrieved_content_summary") = some (PyVal.vstr "relevant excerpt")
    ∧ ∃ lines, format_event ragSummaryOnlyEvent = Except.ok lines
      ∧ ((PyVal.vdict [("retrieved_content_summary", PyVal.vstr "relevant excerpt")]).hasKey
            ("sufficiency_verdict") = true →
          DisplayLine.markdown ("**Retrieved Content Summary:** `" ++
            (PyVal.vstr "relevant excerpt").pystr ++ "`") ∈ lines)
      ∧ ((PyVal.vdict [("retrieved_content_summary", PyVal.vstr "relevant excerpt")]).hasKey
            ("sufficiency_verdict") = false →
          (∀ t, DisplayLine.markdown t ∉ lines)
          ∧ DisplayLine.json
              (PyVal.vdict [("retrieved_content_summary", PyVal.vstr "relevant excerpt")])
            ∈ lines) :=
  ⟨rfl, rfl, rfl, rfl, rfl,
   rag_summary_surfaced_iff_verdict_present ragSummaryOnlyEvent (PyVal.vint 2)
     (PyVal.vstr "Checking the knowledge base")
     (PyVal.vdict [("retrieved_content_summary", PyVal.vstr "relevant excerpt")])
     (PyVal.vstr "relevant excerpt") rfl rfl rfl rfl rfl⟩

/-! ## Claim C10 -/

/-- C10 counterexample: a 2xx body that lacks the response key does
not always complete the turn as a success: with a malformed trace
event in the same body the trace display raises and the turn ends
Failed. -/
theorem missing_keys_turn_not_always_success :
    (⟨none, some [[]]⟩ : ChatBody).response = none
    ∧ (run_turn initializedState "hi"
        (ChatCallResult.ok ⟨none, some [[]]⟩)).succeeded = false :=
  ⟨rfl, rfl⟩

/-- C10 amended: when the decoded 2xx body lacks the response key the
fallback text is returned in its place, and when it lacks the
trace_events key the empty trace is used and the turn completes as a
success; in general a turn on a 2xx body completes as a success
whenever the (defaulted) trace displays without raising. -/
theorem missing_keys_defaults_and_success (s : AppState) (p : String) (body : ChatBody)
    (hp : p ≠ "")
    (_hkey : body.response = none ∨ body.trace_events = none) :
    (body.response = none →
      (call_backend_chat_api body).1
        = "Sorry, I couldn\x27t get a response from the agent.")
    ∧ (body.trace_events = none →
        (call_backend_chat_api body).2 = []
        ∧ (run_turn s p (ChatCallResult.ok body)).succeeded = true)
    ∧ (turnSucceeds (ChatCallResult.ok body) = true →
        (run_turn s p (ChatCallResult.ok body)).succeeded = true) := by
  refine ⟨?_, ?_, ?_⟩
  · intro h
    simp [call_backend_chat_api, h]
  · intro h
    refine ⟨by simp [call_backend_chat_api, h], ?_⟩
    simp [run_turn, if_neg hp, call_backend_chat_api, h, display_trace_events]
  · intro hts
    cases hdisp : display_trace_events (call_backend_chat_api body).2 with
    | error e => simp [turnSucceeds, hdisp] at hts
    | ok recs => simp [run_turn, if_neg hp, hdisp]

theorem missing_keys_defaults_and_success_witness :
    ("hi" ≠ "")
    ∧ ((⟨none, none⟩ : ChatBody).response = none
        ∨ (⟨none, none⟩ : ChatBody).trace_events = none)
    ∧ (((⟨none, none⟩ : ChatBody).response = none →
        (call_backend_chat_api ⟨none, none⟩).1
          = "Sorry, I couldn\x27t get a response from the agent.")
      ∧ ((⟨none, none⟩ : ChatBody).trace_events = none →
          (call_backend_chat_api ⟨none, none⟩).2 = []
          ∧ (run_turn initializedState "hi"
              (ChatCallResult.ok ⟨none, none⟩)).succeeded = true)
      ∧ (turnSucceeds (ChatCallResult.ok ⟨none, none⟩) = true →
          (run_turn initializedState "hi"
            (ChatCallResult.ok ⟨none, none⟩)).succeeded = true)) :=
  ⟨by decide, Or.inl rfl,
   missing_keys_defaults_and_success initializedState "hi" ⟨none, none⟩
     (by decide) (Or.inl rfl)⟩
